import Mathlib

/-
Verification of the module-storage core of the boring-registry repository.

The S3-backed storage implementation (pkg/module/storage_s3.go) is shallowly
embedded: the S3 object store is modelled as an association list from keys to
object bodies together with a fault oracle for the network primitives
(HeadObject, ListObjectsV2Pages, Upload), and each storage operation becomes a
pure function from the storage configuration and the client state to its result
(and, for uploads, the resulting store and the number of object writes
performed).

Helper definitions that the embedded file references but that live outside the
provided sources (the Module value type, the sentinel errors, the key encoding
storagePath / storagePrefix, the key parser objectMetadata and
DefaultArchiveFormat) are modelled from the specification and are marked as
such in their doc comments.
-/

namespace BoringRegistry

/-- Modelled from the spec: the default module archive format used for new
uploads (the constant DefaultArchiveFormat is referenced by storage_s3.go but
defined outside the provided sources); the spec gives "tar.gz" as the default
format and uses it in its worked scenario. -/
def DefaultArchiveFormat : String := "tar.gz"

/-- Modelled from the spec: the Module value type of the data model, one stored
artifact version. The identity fields are namespace, name, provider and
version; DownloadURL is derived at read time from the backend location and the
storage key. (The Go struct lives outside the provided sources.) -/
structure Module where
  Namespace : String
  Name : String
  Provider : String
  Version : String
  DownloadURL : String
deriving DecidableEq

/-- Modelled from the spec: the conceptual error kinds of the error taxonomy
that are wrapped around an underlying cause (the sentinel errors ErrNotFound,
ErrAlreadyExists, ErrListFailed and ErrUploadFailed referenced by
storage_s3.go are defined outside the provided sources). -/
inductive ErrKind where
  | notFound
  | alreadyExists
  | listFailed
  | uploadFailed
deriving DecidableEq

/-- Modelled from the spec: the human-readable text of each sentinel error. -/
def ErrKind.text : ErrKind → String
  | .notFound => "module not found"
  | .alreadyExists => "module already exists"
  | .listFailed => "failed to list modules"
  | .uploadFailed => "failed to upload module"

/-- A Go error value as produced by storage_s3.go: either a sentinel error
wrapped around a cause message (errors.Wrap(sentinel, cause)), or a plain
error built with errors.New. -/
inductive StorageError where
  | wrapped (kind : ErrKind) (cause : String)
  | plain (msg : String)
deriving DecidableEq

/-- The message of a storage error; errors.Wrap(err, msg) yields the message
"msg: err". -/
def StorageError.message : StorageError → String
  | .wrapped kind cause => cause ++ ": " ++ kind.text
  | .plain msg => msg

/-- The S3Storage configuration struct of storage_s3.go (the s3 client and
uploader handles are modelled separately as S3Client, since they carry the
mutable bucket state). -/
structure S3Storage where
  bucket : String
  bucketPrefix : String
  archiveFormat : String
  bucketRegion : String
  pathStyle : Bool
  bucketEndpoint : String

/-- The state of the S3 service as seen by the client: the objects of the
configured bucket as an association list from key to body, plus a fault
oracle injecting transport/auth failures into the HeadObject, list and
upload primitives (some message means the primitive fails with that
underlying error message). -/
structure S3Client where
  objects : List (String × String)
  headFault : String → Option String
  listFault : Option String
  uploadFault : Option String

/-- Byte-wise string prefix test, the matching the S3 listing applies to the
Prefix parameter. -/
def strIsPfxOf (p s : String) : Bool :=
  p.data.isPrefixOf s.data

/-- Modelled from the spec: storagePrefix (referenced by storage_s3.go,
defined outside the provided sources) is the key region covering every
version of one module: the part of the key shape
prefix/namespace/name/provider/name-version.format that precedes the file
name. -/
def storagePrefix (pfx nspace name provider : String) : String :=
  pfx ++ "/" ++ nspace ++ "/" ++ name ++ "/" ++ provider ++ "/"

/-- Modelled from the spec: storagePath (referenced by storage_s3.go, defined
outside the provided sources) deterministically encodes an identity tuple and
archive format as the key prefix/namespace/name/provider/name-version.format
(spec scenario: ("acme","vpc","aws","1.0.0"), format tar.gz, prefix modules
gives modules/acme/vpc/aws/vpc-1.0.0.tar.gz). -/
def storagePath (pfx nspace name provider version fmt : String) : String :=
  storagePrefix pfx nspace name provider ++ name ++ "-" ++ version ++ "." ++ fmt

/-- The final path segment of a key: the characters after the last slash. -/
def lastSegment (key : String) : List Char :=
  key.data.foldl (fun acc c => if c = '/' then [] else acc ++ [c]) []

/-- Modelled from the spec: objectMetadata (referenced by storage_s3.go,
defined outside the provided sources) parses an object key against the
expected shape prefix/namespace/name/provider/name-version.format and
recovers the "version" field (required for listing) plus the "name" field
from the final path segment; a key whose final segment does not match
name-version.format with the default archive format yields no metadata and
is skipped by callers. -/
def objectMetadata (key : String) : List (String × String) :=
  let seg := lastSegment key
  let ext := '.' :: DefaultArchiveFormat.data
  if ext.isSuffixOf seg then
    let base := seg.take (seg.length - ext.length)
    match base.span (fun c => c != '-') with
    | (_, []) => []
    | (nm, _ :: ver) => [("name", String.mk nm), ("version", String.mk ver)]
  else []

/-- The HeadObject existence probe: fails with the injected fault message when
the oracle fires, with the service's not-found message when no object is at
the key, and succeeds otherwise. Returns some message exactly when the Go
call returns a non-nil error. -/
def headObject (c : S3Client) (key : String) : Option String :=
  match c.headFault key with
  | some msg => some msg
  | none =>
    match c.objects.lookup key with
    | some _ => none
    | none => some "NotFound"

/-- A put-object write: replaces the body when the key is already present,
appends the object otherwise. -/
def putObject (objects : List (String × String)) (key body : String) :
    List (String × String) :=
  if (objects.lookup key).isSome then
    objects.map (fun kv => if kv.fst = key then (key, body) else kv)
  else
    objects ++ [(key, body)]

/-- GetModule of storage_s3.go: computes the key with the configured archive
format, probes existence with HeadObject (wrapping any error in ErrNotFound),
and on success synthesizes the Module with the derived download URL. -/
def S3Storage.GetModule (s : S3Storage) (c : S3Client)
    (nspace name provider version : String) : Except StorageError Module :=
  let key := storagePath s.bucketPrefix nspace name provider version s.archiveFormat
  match headObject c key with
  | some msg => .error (.wrapped .notFound msg)
  | none =>
    .ok
      { Namespace := nspace
        Name := name
        Provider := provider
        Version := version
        DownloadURL :=
          s.bucket ++ ".s3-" ++ s.bucketRegion ++ ".amazonaws.com/" ++ key }

/-- ListModuleVersions of storage_s3.go: lists the bucket under the module's
storage prefix (wrapping a listing failure in ErrListFailed), keeps each
object whose key parses to a version, skipping the rest, and synthesizes one
Module per kept object from the caller's arguments, the parsed version and
the object's key. -/
def S3Storage.ListModuleVersions (s : S3Storage) (c : S3Client)
    (nspace name provider : String) : Except StorageError (List Module) :=
  match c.listFault with
  | some msg => .error (.wrapped .listFailed msg)
  | none =>
    let pfx := storagePrefix s.bucketPrefix nspace name provider
    .ok <| c.objects.filterMap fun kv =>
      if strIsPfxOf pfx kv.fst then
        match (objectMetadata kv.fst).lookup "version" with
        | none => none
        | some version =>
          some
            { Namespace := nspace
              Name := name
              Provider := provider
              Version := version
              DownloadURL :=
                s.bucket ++ ".s3-" ++ s.bucketRegion ++ ".amazonaws.com/" ++ kv.fst }
      else none

/-- The observable outcome of an upload: the returned value, the bucket
contents afterwards, and the number of object writes performed against the
store. -/
structure UploadOutcome where
  result : Except StorageError Module
  objects : List (String × String)
  writes : Nat

/-- UploadModule of storage_s3.go: validates that each identity field is
non-empty, computes the key with the fixed default archive format, fails with
ErrAlreadyExists (wrapped around the key) when GetModule succeeds for the
identity, performs the object write (wrapping a failure in ErrUploadFailed),
and finally returns the module re-read through GetModule on the updated
store. -/
def S3Storage.UploadModule (s : S3Storage) (c : S3Client)
    (nspace name provider version body : String) : UploadOutcome :=
  if nspace = "" then
    ⟨.error (.plain "namespace not defined"), c.objects, 0⟩
  else if name = "" then
    ⟨.error (.plain "name not defined"), c.objects, 0⟩
  else if provider = "" then
    ⟨.error (.plain "provider not defined"), c.objects, 0⟩
  else if version = "" then
    ⟨.error (.plain "version not defined"), c.objects, 0⟩
  else
    let key := storagePath s.bucketPrefix nspace name provider version DefaultArchiveFormat
    match s.GetModule c nspace name provider version with
    | .ok _ => ⟨.error (.wrapped .alreadyExists key), c.objects, 0⟩
    | .error _ =>
      match c.uploadFault with
      | some msg => ⟨.error (.wrapped .uploadFailed msg), c.objects, 0⟩
      | none =>
        let c' : S3Client := { c with objects := putObject c.objects key body }
        ⟨s.GetModule c' nspace name provider version, c'.objects, 1⟩

/-- Inversion for a successful GetModule: the existence probe at the key built
with the configured archive format succeeded, and the module is synthesized
from the arguments with the derived download URL. -/
theorem getModule_ok_iff (s : S3Storage) (c : S3Client)
    (nspace name provider version : String) (m : Module) :
    s.GetModule c nspace name provider version = .ok m ↔
      headObject c (storagePath s.bucketPrefix nspace name provider version s.archiveFormat) = none ∧
      m = { Namespace := nspace
            Name := name
            Provider := provider
            Version := version
            DownloadURL :=
              s.bucket ++ ".s3-" ++ s.bucketRegion ++ ".amazonaws.com/" ++
                storagePath s.bucketPrefix nspace name provider version s.archiveFormat } := by
  unfold S3Storage.GetModule
  cases h : headObject c (storagePath s.bucketPrefix nspace name provider version s.archiveFormat) <;>
    simp [h, eq_comm]

/-- Inversion for a failed GetModule: the existence probe failed with some
underlying message and the error wraps ErrNotFound around it. -/
theorem getModule_error_iff (s : S3Storage) (c : S3Client)
    (nspace name provider version : String) (e : StorageError) :
    s.GetModule c nspace name provider version = .error e ↔
      ∃ cause,
        headObject c (storagePath s.bucketPrefix nspace name provider version s.archiveFormat) =
          some cause ∧
        e = .wrapped .notFound cause := by
  unfold S3Storage.GetModule
  cases h : headObject c (storagePath s.bucketPrefix nspace name provider version s.archiveFormat) <;>
    simp [h, eq_comm]

/-- A fault-free failing probe means no object is stored at the key. -/
theorem headObject_some_of_no_fault (c : S3Client) (key cause : String)
    (hf : c.headFault key = none) (h : headObject c key = some cause) :
    c.objects.lookup key = none := by
  unfold headObject at h
  rw [hf] at h
  cases hl : c.objects.lookup key <;> simp [hl] at h ⊢

/-- Case analysis of UploadModule: either it performed no write, left the
store unchanged and failed, or it performed exactly one write of the body at
the key built with the default archive format after a failed existence check
and a fault-free upload call, returning the re-read of the updated store. -/
theorem uploadModule_spec (s : S3Storage) (c : S3Client)
    (nspace name provider version body : String) :
    ((s.UploadModule c nspace name provider version body).writes = 0 ∧
      (s.UploadModule c nspace name provider version body).objects = c.objects ∧
      ∃ e, (s.UploadModule c nspace name provider version body).result = .error e) ∨
    ((s.UploadModule c nspace name provider version body).writes = 1 ∧
      (s.UploadModule c nspace name provider version body).objects =
        putObject c.objects
          (storagePath s.bucketPrefix nspace name provider version DefaultArchiveFormat) body ∧
      (∃ e, s.GetModule c nspace name provider version = .error e) ∧
      c.uploadFault = none ∧
      (s.UploadModule c nspace name provider version body).result =
        s.GetModule
          { c with
            objects :=
              putObject c.objects
                (storagePath s.bucketPrefix nspace name provider version DefaultArchiveFormat)
                body }
          nspace name provider version) := by
  unfold S3Storage.UploadModule
  by_cases h1 : nspace = ""
  · left; simp [h1]
  by_cases h2 : name = ""
  · left; simp [h1, h2]
  by_cases h3 : provider = ""
  · left; simp [h1, h2, h3]
  by_cases h4 : version = ""
  · left; simp [h1, h2, h3, h4]
  cases hget : s.GetModule c nspace name provider version with
  | ok m0 => left; simp [h1, h2, h3, h4, hget]
  | error e0 =>
    cases hup : c.uploadFault with
    | some msg => left; simp [h1, h2, h3, h4, hget, hup]
    | none => right; simp [h1, h2, h3, h4, hget, hup]

/-- Claim C1: at an identity where a module already exists (the existence
check succeeds), UploadModule fails with AlreadyExists wrapped around the
computed storage key (the key is a prefix of the error message), performs no
write, leaves the store unchanged, and a subsequent GetModule still returns
the original module. -/
theorem c1_duplicate_upload_rejected (s : S3Storage) (c : S3Client)
    (nspace name provider version body : String) (m : Module)
    (hns : nspace ≠ "") (hn : name ≠ "") (hp : provider ≠ "") (hv : version ≠ "")
    (hex : s.GetModule c nspace name provider version = .ok m) :
    s.UploadModule c nspace name provider version body =
      ⟨.error (.wrapped .alreadyExists
          (storagePath s.bucketPrefix nspace name provider version DefaultArchiveFormat)),
        c.objects, 0⟩ ∧
    (∃ rest,
      (StorageError.wrapped .alreadyExists
          (storagePath s.bucketPrefix nspace name provider version DefaultArchiveFormat)).message =
        storagePath s.bucketPrefix nspace name provider version DefaultArchiveFormat ++ rest) ∧
    s.GetModule
        { c with objects := (s.UploadModule c nspace name provider version body).objects }
        nspace name provider version = .ok m := by
  have hU : s.UploadModule c nspace name provider version body =
      ⟨.error (.wrapped .alreadyExists
          (storagePath s.bucketPrefix nspace name provider version DefaultArchiveFormat)),
        c.objects, 0⟩ := by
    unfold S3Storage.UploadModule
    simp [hns, hn, hp, hv, hex]
  refine ⟨hU, ⟨": " ++ ErrKind.alreadyExists.text, ?_⟩, ?_⟩
  · simp [StorageError.message, String.append_assoc]
  · rw [hU]
    exact hex

/-- Claim C2: a successful UploadModule returns exactly what GetModule
re-reads from the updated store, and that module's identity fields equal the
caller's inputs. -/
theorem c2_upload_then_get (s : S3Storage) (c : S3Client)
    (nspace name provider version body : String) (m : Module)
    (hok : (s.UploadModule c nspace name provider version body).result = .ok m) :
    s.GetModule
        { c with objects := (s.UploadModule c nspace name provider version body).objects }
        nspace name provider version = .ok m ∧
    m.Namespace = nspace ∧ m.Name = name ∧ m.Provider = provider ∧ m.Version = version := by
  rcases uploadModule_spec s c nspace name provider version body with
    ⟨_, _, e, he⟩ | ⟨_, hobj, _, _, hres⟩
  · rw [he] at hok
    exact absurd hok (by simp)
  · have hget : s.GetModule
        { c with objects := (s.UploadModule c nspace name provider version body).objects }
        nspace name provider version = .ok m := by
      rw [hobj, ← hres]
      exact hok
    rcases (getModule_ok_iff s _ nspace name provider version m).mp hget with ⟨_, hm⟩
    exact ⟨hget, by simp [hm]⟩

/-- Claim C3: when an identity field is empty, UploadModule fails with a
validation error naming the missing field; the outcome is the same for every
client state, with the store unchanged and zero writes, so neither the
existence check nor any network write can have taken place. -/
theorem c3_missing_field_validation (s : S3Storage)
    (nspace name provider version body : String)
    (h : nspace = "" ∨ name = "" ∨ provider = "" ∨ version = "") :
    ∃ fld,
      ((fld = "namespace" ∧ nspace = "") ∨ (fld = "name" ∧ name = "") ∨
        (fld = "provider" ∧ provider = "") ∨ (fld = "version" ∧ version = "")) ∧
      ∀ c : S3Client,
        s.UploadModule c nspace name provider version body =
          ⟨.error (.plain (fld ++ " not defined")), c.objects, 0⟩ := by
  by_cases h1 : nspace = ""
  · refine ⟨"namespace", Or.inl ⟨rfl, h1⟩, fun c => ?_⟩
    unfold S3Storage.UploadModule
    rw [if_pos h1]
    rfl
  by_cases h2 : name = ""
  · refine ⟨"name", Or.inr (Or.inl ⟨rfl, h2⟩), fun c => ?_⟩
    unfold S3Storage.UploadModule
    rw [if_neg h1, if_pos h2]
    rfl
  by_cases h3 : provider = ""
  · refine ⟨"provider", Or.inr (Or.inr (Or.inl ⟨rfl, h3⟩)), fun c => ?_⟩
    unfold S3Storage.UploadModule
    rw [if_neg h1, if_neg h2, if_pos h3]
    rfl
  by_cases h4 : version = ""
  · refine ⟨"version", Or.inr (Or.inr (Or.inr ⟨rfl, h4⟩)), fun c => ?_⟩
    unfold S3Storage.UploadModule
    rw [if_neg h1, if_neg h2, if_neg h3, if_pos h4]
    rfl
  · rcases h with h | h | h | h <;> contradiction

/-- Claim C4, counterexample: with an object stored at the computed key and a
transport fault injected into the existence probe, GetModule reports a
NotFound-kind error even though the object exists, so the claim that NotFound
is signalled exactly when no object exists — and that transport errors
surface as a distinct non-NotFound failure — is false of the code. -/
theorem c4_counterexample :
    S3Storage.GetModule
        ⟨"b", "modules", "tar.gz", "eu", false, ""⟩
        ⟨[("modules/acme/vpc/aws/vpc-1.0.0.tar.gz", "blob")],
          fun _ => some "transport failure", none, none⟩
        "acme" "vpc" "aws" "1.0.0" =
      .error (.wrapped .notFound "transport failure") ∧
    (S3Client.objects
        ⟨[("modules/acme/vpc/aws/vpc-1.0.0.tar.gz", "blob")],
          fun _ => some "transport failure", none, none⟩).lookup
      "modules/acme/vpc/aws/vpc-1.0.0.tar.gz" = some "blob" :=
  ⟨rfl, rfl⟩

/-- Claim C4 as amended: GetModule fails exactly when the existence probe
fails; every probe failure — absence of the object or a transport/auth error
— is wrapped as a NotFound-kind error carrying the underlying cause at the
start of its message (so the cause is surfaced, not swallowed, but as
NotFound rather than a distinct generic failure); when the probe is
fault-free, absence of the object yields such a NotFound error and presence
yields success. -/
theorem c4_amended_probe_failure_wrapping (s : S3Storage) (c : S3Client)
    (nspace name provider version : String) :
    (∀ e, s.GetModule c nspace name provider version = .error e →
      ∃ cause,
        headObject c (storagePath s.bucketPrefix nspace name provider version s.archiveFormat) =
          some cause ∧
        e = .wrapped .notFound cause ∧
        ∃ rest, e.message = cause ++ rest) ∧
    (headObject c (storagePath s.bucketPrefix nspace name provider version s.archiveFormat) =
        none →
      ∃ m, s.GetModule c nspace name provider version = .ok m) ∧
    (c.headFault (storagePath s.bucketPrefix nspace name provider version s.archiveFormat) =
        none →
      (c.objects.lookup
          (storagePath s.bucketPrefix nspace name provider version s.archiveFormat)) = none →
      s.GetModule c nspace name provider version = .error (.wrapped .notFound "NotFound")) := by
  refine ⟨?_, ?_, ?_⟩
  · intro e he
    rcases (getModule_error_iff s c nspace name provider version e).mp he with
      ⟨cause, hprobe, hwrap⟩
    exact ⟨cause, hprobe, hwrap,
      ⟨": " ++ ErrKind.notFound.text, by simp [hwrap, StorageError.message, String.append_assoc]⟩⟩
  · intro hprobe
    exact ⟨_, (getModule_ok_iff s c nspace name provider version _).mpr ⟨hprobe, rfl⟩⟩
  · intro hf hl
    apply (getModule_error_iff s c nspace name provider version _).mpr
    refine ⟨"NotFound", ?_, rfl⟩
    unfold headObject
    rw [hf, hl]

/-- Claim C5, counterexample: with no object stored, a transport fault on the
existence probe and a fault-free upload call, UploadModule performs the
object write and then fails when re-reading the module, so the call fails
after having performed one write and changed the store — contradicting the
claim that every failure path performs zero writes. -/
theorem c5_counterexample :
    S3Storage.UploadModule
        ⟨"b", "modules", "tar.gz", "eu", false, ""⟩
        ⟨[], fun _ => some "transport failure", none, none⟩
        "acme" "vpc" "aws" "1.0.0" "blob" =
      ⟨.error (.wrapped .notFound "transport failure"),
        [("modules/acme/vpc/aws/vpc-1.0.0.tar.gz", "blob")], 1⟩ ∧
    (1 : Nat) ≠ 0 :=
  ⟨rfl, by decide⟩

/-- Claim C5 as amended: a successful UploadModule performs exactly one
write; a failure before the write (validation, duplicate identity, failed
upload call) performs zero writes and leaves the store unchanged; the one
remaining failure path — the write succeeded but the final re-read failed —
performs exactly one write, writing the body at the default-format key, and
its error is the NotFound-kind error of the re-read. -/
theorem c5_amended_write_discipline (s : S3Storage) (c : S3Client)
    (nspace name provider version body : String) :
    (∀ m, (s.UploadModule c nspace name provider version body).result = .ok m →
      (s.UploadModule c nspace name provider version body).writes = 1) ∧
    ((s.UploadModule c nspace name provider version body).writes = 0 →
      (s.UploadModule c nspace name provider version body).objects = c.objects) ∧
    ((s.UploadModule c nspace name provider version body).writes = 1 →
      (s.UploadModule c nspace name provider version body).objects =
        putObject c.objects
          (storagePath s.bucketPrefix nspace name provider version DefaultArchiveFormat) body) ∧
    (∀ e, (s.UploadModule c nspace name provider version body).result = .error e →
      (s.UploadModule c nspace name provider version body).writes = 1 →
      ∃ cause, e = .wrapped .notFound cause) := by
  rcases uploadModule_spec s c nspace name provider version body with
    ⟨hw, hobj, e0, he0⟩ | ⟨hw, hobj, _, _, hres⟩
  · refine ⟨?_, fun _ => hobj, ?_, ?_⟩
    · intro m hm
      rw [he0] at hm
      exact absurd hm (by simp)
    · intro h1
      rw [hw] at h1
      exact absurd h1 (by simp)
    · intro e _ h1
      rw [hw] at h1
      exact absurd h1 (by simp)
  · refine ⟨fun _ _ => hw, ?_, fun _ => hobj, ?_⟩
    · intro h0
      rw [hw] at h0
      exact absurd h0 (by simp)
    · intro e he _
      rw [hres] at he
      rcases (getModule_error_iff s _ nspace name provider version e).mp he with
        ⟨cause, _, hwrap⟩
      exact ⟨cause, hwrap⟩

/-- Claim C6: the read/write key asymmetry — whenever UploadModule writes, it
writes at the key built with the fixed DefaultArchiveFormat, whatever archive
format the backend is configured with, while a successful GetModule probed
the key built with the backend's configured archive format and derives its
URL from that key. -/
theorem c6_archive_format_asymmetry (s : S3Storage) (c : S3Client)
    (nspace name provider version body : String) (m : Module) :
    ((s.UploadModule c nspace name provider version body).writes = 1 →
      (s.UploadModule c nspace name provider version body).objects =
        putObject c.objects
          (storagePath s.bucketPrefix nspace name provider version DefaultArchiveFormat) body) ∧
    (s.GetModule c nspace name provider version = .ok m →
      headObject c (storagePath s.bucketPrefix nspace name provider version s.archiveFormat) =
        none ∧
      m.DownloadURL =
        s.bucket ++ ".s3-" ++ s.bucketRegion ++ ".amazonaws.com/" ++
          storagePath s.bucketPrefix nspace name provider version s.archiveFormat) := by
  constructor
  · intro h1
    rcases uploadModule_spec s c nspace name provider version body with
      ⟨hw, _, _⟩ | ⟨_, hobj, _⟩
    · rw [hw] at h1
      exact absurd h1 (by simp)
    · exact hobj
  · intro hget
    rcases (getModule_ok_iff s c nspace name provider version m).mp hget with ⟨hprobe, hm⟩
    exact ⟨hprobe, by simp [hm]⟩

/-- A list is a prefix of itself followed by anything. -/
theorem list_isPfxOf_append (l t : List Char) : l.isPrefixOf (l ++ t) = true := by
  induction l with
  | nil => simp [List.isPrefixOf]
  | cons a as ih => simp [List.isPrefixOf, ih]

/-- Every storage key falls under the storage prefix of its module. -/
theorem strIsPfxOf_storagePath (pfx nspace name provider version fmt : String) :
    strIsPfxOf (storagePrefix pfx nspace name provider)
      (storagePath pfx nspace name provider version fmt) = true := by
  unfold strIsPfxOf storagePath
  simp only [String.data_append, List.append_assoc]
  exact list_isPfxOf_append _ _

/-- The fault-free result of ListModuleVersions: the store entries under the
module prefix whose keys yield a version, mapped to modules. -/
theorem listModuleVersions_of_no_fault (s : S3Storage) (c : S3Client)
    (nspace name provider : String) (hlf : c.listFault = none) :
    s.ListModuleVersions c nspace name provider =
      .ok (c.objects.filterMap fun kv =>
        if strIsPfxOf (storagePrefix s.bucketPrefix nspace name provider) kv.fst then
          match (objectMetadata kv.fst).lookup "version" with
          | none => none
          | some version =>
            some
              { Namespace := nspace
                Name := name
                Provider := provider
                Version := version
                DownloadURL :=
                  s.bucket ++ ".s3-" ++ s.bucketRegion ++ ".amazonaws.com/" ++ kv.fst }
        else none) := by
  unfold S3Storage.ListModuleVersions
  rw [hlf]

/-- Claim C7: an object under the listed prefix whose key yields no
recoverable version is skipped: adding it to the store changes nothing about
the result of ListModuleVersions, and with a fault-free listing the call
still succeeds. -/
theorem c7_malformed_keys_skipped (s : S3Storage) (c : S3Client)
    (nspace name provider badKey blob : String)
    (hbad : (objectMetadata badKey).lookup "version" = none) :
    s.ListModuleVersions { c with objects := (badKey, blob) :: c.objects }
        nspace name provider =
      s.ListModuleVersions c nspace name provider ∧
    (c.listFault = none →
      ∃ l,
        s.ListModuleVersions { c with objects := (badKey, blob) :: c.objects }
            nspace name provider = .ok l) := by
  constructor
  · unfold S3Storage.ListModuleVersions
    cases hlf : c.listFault <;> simp [hlf, hbad]
  · intro hlf
    unfold S3Storage.ListModuleVersions
    simp [hlf]

/-- Claim C8: ListModuleVersions fails with ListFailed wrapping the cause
exactly on a listing fault; with a fault-free listing and no object under the
module prefix it returns the empty list without error; and a successful
upload of a version extends the fault-free listing by exactly the module of
that version. -/
theorem c8_listing_inventory (s : S3Storage) (c : S3Client)
    (nspace name provider version body : String) (m : Module) (l : List Module) :
    (∀ msg, c.listFault = some msg →
      s.ListModuleVersions c nspace name provider = .error (.wrapped .listFailed msg)) ∧
    (c.listFault = none →
      (∀ kv ∈ c.objects,
        strIsPfxOf (storagePrefix s.bucketPrefix nspace name provider) kv.fst = false) →
      s.ListModuleVersions c nspace name provider = .ok []) ∧
    (s.archiveFormat = DefaultArchiveFormat →
      c.headFault
          (storagePath s.bucketPrefix nspace name provider version DefaultArchiveFormat) =
        none →
      (objectMetadata
            (storagePath s.bucketPrefix nspace name provider version
              DefaultArchiveFormat)).lookup "version" = some version →
      (s.UploadModule c nspace name provider version body).result = .ok m →
      s.ListModuleVersions c nspace name provider = .ok l →
      s.ListModuleVersions
          { c with objects := (s.UploadModule c nspace name provider version body).objects }
          nspace name provider =
        .ok (l ++
          [{ Namespace := nspace, Name := name, Provider := provider, Version := version,
             DownloadURL :=
               s.bucket ++ ".s3-" ++ s.bucketRegion ++ ".amazonaws.com/" ++
                 storagePath s.bucketPrefix nspace name provider version
                   DefaultArchiveFormat }])) := by
  refine ⟨?_, ?_, ?_⟩
  · intro msg hlf
    unfold S3Storage.ListModuleVersions
    rw [hlf]
  · intro hlf hnone
    rw [listModuleVersions_of_no_fault s c nspace name provider hlf]
    simp only [Except.ok.injEq]
    rw [List.filterMap_eq_nil_iff]
    intro kv hkv
    simp [hnone kv hkv]
  · intro hfmt hhf hmeta hok hlist
    rcases uploadModule_spec s c nspace name provider version body with
      ⟨_, _, e, he⟩ | ⟨_, hobj, ⟨e, hpre⟩, _, _⟩
    · rw [he] at hok
      exact absurd hok (by simp)
    · rcases (getModule_error_iff s c nspace name provider version e).mp hpre with
        ⟨cause, hprobe, _⟩
      rw [hfmt] at hprobe
      have hlk :=
        headObject_some_of_no_fault c
          (storagePath s.bucketPrefix nspace name provider version DefaultArchiveFormat)
          cause hhf hprobe
      have hput :
          putObject c.objects
              (storagePath s.bucketPrefix nspace name provider version DefaultArchiveFormat)
              body =
            c.objects ++
              [(storagePath s.bucketPrefix nspace name provider version DefaultArchiveFormat,
                body)] := by
        unfold putObject
        rw [hlk]
        rfl
      have hlf : c.listFault = none := by
        cases hlf2 : c.listFault with
        | none => rfl
        | some msg =>
          unfold S3Storage.ListModuleVersions at hlist
          rw [hlf2] at hlist
          exact absurd hlist (by simp)
      rw [listModuleVersions_of_no_fault s c nspace name provider hlf] at hlist
      simp only [Except.ok.injEq] at hlist
      rw [listModuleVersions_of_no_fault s
        { c with objects := (s.UploadModule c nspace name provider version body).objects }
        nspace name provider hlf]
      simp only [Except.ok.injEq]
      show List.filterMap _ (s.UploadModule c nspace name provider version body).objects = _
      rw [hobj, hput, List.filterMap_append, hlist]
      congr 1
      simp [strIsPfxOf_storagePath, hmeta]

/-- Membership in a listing: each returned module comes from some stored
object whose key is under the module prefix and yields a version, carries the
caller identity fields verbatim, and derives its URL from that object key. -/
theorem listModuleVersions_member (s : S3Storage) (c : S3Client)
    (nspace name provider : String) (l : List Module) (m : Module)
    (hlist : s.ListModuleVersions c nspace name provider = .ok l) (hm : m ∈ l) :
    ∃ kv ∈ c.objects, ∃ ver,
      strIsPfxOf (storagePrefix s.bucketPrefix nspace name provider) kv.fst = true ∧
      (objectMetadata kv.fst).lookup "version" = some ver ∧
      m = { Namespace := nspace, Name := name, Provider := provider, Version := ver,
            DownloadURL :=
              s.bucket ++ ".s3-" ++ s.bucketRegion ++ ".amazonaws.com/" ++ kv.fst } := by
  have hlf : c.listFault = none := by
    cases hlf2 : c.listFault with
    | none => rfl
    | some msg =>
      unfold S3Storage.ListModuleVersions at hlist
      rw [hlf2] at hlist
      exact absurd hlist (by simp)
  rw [listModuleVersions_of_no_fault s c nspace name provider hlf] at hlist
  simp only [Except.ok.injEq] at hlist
  rw [← hlist] at hm
  rcases List.mem_filterMap.mp hm with ⟨kv, hkv, hfkv⟩
  refine ⟨kv, hkv, ?_⟩
  by_cases hpfx : strIsPfxOf (storagePrefix s.bucketPrefix nspace name provider) kv.fst
  · rw [if_pos hpfx] at hfkv
    cases hver : (objectMetadata kv.fst).lookup "version" with
    | none =>
      rw [hver] at hfkv
      exact absurd hfkv (by simp)
    | some ver =>
      rw [hver] at hfkv
      simp only [Option.some.injEq] at hfkv
      exact ⟨ver, hpfx, rfl, hfkv.symm⟩
  · rw [if_neg hpfx] at hfkv
    exact absurd hfkv (by simp)

/-- A derived download URL is never the empty string. -/
theorem downloadURL_ne_empty (a b c2 : String) :
    a ++ ".s3-" ++ b ++ ".amazonaws.com/" ++ c2 ≠ "" := by
  intro h
  have hlen : (a ++ ".s3-" ++ b ++ ".amazonaws.com/" ++ c2).length = (0 : Nat) := by
    rw [h]
    rfl
  rw [String.length_append, String.length_append, String.length_append,
    String.length_append] at hlen
  have h4 : (".s3-" : String).length = 4 := rfl
  have h15 : (".amazonaws.com/" : String).length = 15 := rfl
  omega

/-- Claim C9: the download URL of every module produced by GetModule or
ListModuleVersions is bucket ++ ".s3-" ++ region ++ ".amazonaws.com/" ++ key
for the object storage key; in particular a successful GetModule yields a
non-empty URL that contains the computed key. -/
theorem c9_download_url_convention (s : S3Storage) (c : S3Client)
    (nspace name provider version : String) (m : Module) (l : List Module) :
    (s.GetModule c nspace name provider version = .ok m →
      m.DownloadURL =
        s.bucket ++ ".s3-" ++ s.bucketRegion ++ ".amazonaws.com/" ++
          storagePath s.bucketPrefix nspace name provider version s.archiveFormat ∧
      (∃ pre, m.DownloadURL =
        pre ++ storagePath s.bucketPrefix nspace name provider version s.archiveFormat) ∧
      m.DownloadURL ≠ "") ∧
    (s.ListModuleVersions c nspace name provider = .ok l →
      ∀ m2 ∈ l, ∃ kv ∈ c.objects,
        m2.DownloadURL =
          s.bucket ++ ".s3-" ++ s.bucketRegion ++ ".amazonaws.com/" ++ kv.fst ∧
        m2.DownloadURL ≠ "") := by
  constructor
  · intro hget
    rcases (getModule_ok_iff s c nspace name provider version m).mp hget with ⟨_, hm⟩
    subst hm
    exact ⟨rfl, ⟨s.bucket ++ ".s3-" ++ s.bucketRegion ++ ".amazonaws.com/", rfl⟩,
      downloadURL_ne_empty _ _ _⟩
  · intro hlist m2 hm2
    rcases listModuleVersions_member s c nspace name provider l m2 hlist hm2 with
      ⟨kv, hkv, ver, _, _, hmeq⟩
    subst hmeq
    exact ⟨kv, hkv, rfl, downloadURL_ne_empty _ _ _⟩

/-- Claim C10: every module returned by ListModuleVersions carries the
caller namespace, name and provider verbatim; only its version comes from
the stored object key, so even a foreign parseable key under the prefix is
reported under the caller identity. -/
theorem c10_listing_copies_caller_identity (s : S3Storage) (c : S3Client)
    (nspace name provider : String) (l : List Module)
    (hlist : s.ListModuleVersions c nspace name provider = .ok l) :
    ∀ m ∈ l,
      m.Namespace = nspace ∧ m.Name = name ∧ m.Provider = provider ∧
      ∃ kv ∈ c.objects, (objectMetadata kv.fst).lookup "version" = some m.Version := by
  intro m hm
  rcases listModuleVersions_member s c nspace name provider l m hlist hm with
    ⟨kv, hkv, ver, _, hver, hmeq⟩
  subst hmeq
  exact ⟨rfl, rfl, rfl, kv, hkv, hver⟩

/-- Witness for claim C1 at a concrete backend and store holding the module:
the duplicate upload is rejected with the key in the AlreadyExists error and
the store keeps the original object. -/
theorem c1_witness :
    S3Storage.UploadModule
        ⟨"b", "modules", "tar.gz", "eu", false, ""⟩
        ⟨[("modules/acme/vpc/aws/vpc-1.0.0.tar.gz", "orig")], fun _ => none, none, none⟩
        "acme" "vpc" "aws" "1.0.0" "new" =
      ⟨.error (.wrapped .alreadyExists "modules/acme/vpc/aws/vpc-1.0.0.tar.gz"),
        [("modules/acme/vpc/aws/vpc-1.0.0.tar.gz", "orig")], 0⟩ :=
  (c1_duplicate_upload_rejected
      ⟨"b", "modules", "tar.gz", "eu", false, ""⟩
      ⟨[("modules/acme/vpc/aws/vpc-1.0.0.tar.gz", "orig")], fun _ => none, none, none⟩
      "acme" "vpc" "aws" "1.0.0" "new"
      { Namespace := "acme", Name := "vpc", Provider := "aws", Version := "1.0.0",
        DownloadURL := "b.s3-eu.amazonaws.com/modules/acme/vpc/aws/vpc-1.0.0.tar.gz" }
      (by decide) (by decide) (by decide) (by decide) rfl).1

/-- Witness for claim C2 at a concrete upload into an empty store: the
subsequent read returns the module re-read from the updated store. -/
theorem c2_witness :
    S3Storage.GetModule
        ⟨"b", "modules", "tar.gz", "eu", false, ""⟩
        ⟨[("modules/acme/vpc/aws/vpc-1.0.0.tar.gz", "blob")], fun _ => none, none, none⟩
        "acme" "vpc" "aws" "1.0.0" =
      .ok { Namespace := "acme", Name := "vpc", Provider := "aws", Version := "1.0.0",
            DownloadURL := "b.s3-eu.amazonaws.com/modules/acme/vpc/aws/vpc-1.0.0.tar.gz" } :=
  (c2_upload_then_get
      ⟨"b", "modules", "tar.gz", "eu", false, ""⟩
      ⟨[], fun _ => none, none, none⟩
      "acme" "vpc" "aws" "1.0.0" "blob"
      { Namespace := "acme", Name := "vpc", Provider := "aws", Version := "1.0.0",
        DownloadURL := "b.s3-eu.amazonaws.com/modules/acme/vpc/aws/vpc-1.0.0.tar.gz" }
      rfl).1

/-- Witness for claim C3 at a concrete call with an empty namespace: the
validation error names the namespace field and the store is untouched. -/
theorem c3_witness :
    S3Storage.UploadModule
        ⟨"b", "modules", "tar.gz", "eu", false, ""⟩
        ⟨[], fun _ => none, none, none⟩
        "" "vpc" "aws" "1.0.0" "blob" =
      ⟨.error (.plain "namespace not defined"), [], 0⟩ := by
  rcases c3_missing_field_validation
      ⟨"b", "modules", "tar.gz", "eu", false, ""⟩
      "" "vpc" "aws" "1.0.0" "blob" (Or.inl rfl) with ⟨fld, hfld, hall⟩
  have hf : fld = "namespace" := by
    rcases hfld with ⟨hf, _⟩ | ⟨_, h⟩ | ⟨_, h⟩ | ⟨_, h⟩
    · exact hf
    all_goals exact absurd h (by decide)
  rw [hall ⟨[], fun _ => none, none, none⟩, hf]
  rfl

/-- Witness for claim C4 as amended, at a fault-free probe over an empty
store: GetModule fails with NotFound wrapped around the probe's message. -/
theorem c4_witness :
    S3Storage.GetModule
        ⟨"b", "modules", "tar.gz", "eu", false, ""⟩
        ⟨[], fun _ => none, none, none⟩
        "acme" "vpc" "aws" "1.0.0" =
      .error (.wrapped .notFound "NotFound") :=
  (c4_amended_probe_failure_wrapping
      ⟨"b", "modules", "tar.gz", "eu", false, ""⟩
      ⟨[], fun _ => none, none, none⟩
      "acme" "vpc" "aws" "1.0.0").2.2 rfl rfl

/-- Witness for claim C5 as amended, at a concrete successful upload: exactly
one write was performed. -/
theorem c5_witness :
    (S3Storage.UploadModule
        ⟨"b", "modules", "tar.gz", "eu", false, ""⟩
        ⟨[], fun _ => none, none, none⟩
        "acme" "vpc" "aws" "1.0.0" "blob").writes = 1 :=
  (c5_amended_write_discipline
      ⟨"b", "modules", "tar.gz", "eu", false, ""⟩
      ⟨[], fun _ => none, none, none⟩
      "acme" "vpc" "aws" "1.0.0" "blob").1
    { Namespace := "acme", Name := "vpc", Provider := "aws", Version := "1.0.0",
      DownloadURL := "b.s3-eu.amazonaws.com/modules/acme/vpc/aws/vpc-1.0.0.tar.gz" }
    rfl

/-- Witness for claim C6 at a backend configured with the zip archive format:
the upload still writes the tar.gz default-format key, while GetModule probes
the zip key. -/
theorem c6_witness :
    (S3Storage.UploadModule
        ⟨"b", "modules", "zip", "eu", false, ""⟩
        ⟨[], fun _ => none, none, none⟩
        "acme" "vpc" "aws" "1.0.0" "blob").objects =
      [("modules/acme/vpc/aws/vpc-1.0.0.tar.gz", "blob")] ∧
    headObject
        ⟨[("modules/acme/vpc/aws/vpc-1.0.0.zip", "x")], fun _ => none, none, none⟩
        "modules/acme/vpc/aws/vpc-1.0.0.zip" = none :=
  ⟨(c6_archive_format_asymmetry
        ⟨"b", "modules", "zip", "eu", false, ""⟩
        ⟨[], fun _ => none, none, none⟩
        "acme" "vpc" "aws" "1.0.0" "blob"
        { Namespace := "acme", Name := "vpc", Provider := "aws", Version := "1.0.0",
          DownloadURL := "" }).1 rfl,
    ((c6_archive_format_asymmetry
        ⟨"b", "modules", "zip", "eu", false, ""⟩
        ⟨[("modules/acme/vpc/aws/vpc-1.0.0.zip", "x")], fun _ => none, none, none⟩
        "acme" "vpc" "aws" "1.0.0" "blob"
        { Namespace := "acme", Name := "vpc", Provider := "aws", Version := "1.0.0",
          DownloadURL := "b.s3-eu.amazonaws.com/modules/acme/vpc/aws/vpc-1.0.0.zip" }).2
      rfl).1⟩

/-- Witness for claim C7 at a concrete store: adding an unparseable
readme.txt object under the prefix leaves the listing unchanged. -/
theorem c7_witness :
    S3Storage.ListModuleVersions
        ⟨"b", "modules", "tar.gz", "eu", false, ""⟩
        ⟨[("modules/acme/vpc/aws/readme.txt", "junk"),
          ("modules/acme/vpc/aws/vpc-1.0.0.tar.gz", "blob")], fun _ => none, none, none⟩
        "acme" "vpc" "aws" =
      S3Storage.ListModuleVersions
        ⟨"b", "modules", "tar.gz", "eu", false, ""⟩
        ⟨[("modules/acme/vpc/aws/vpc-1.0.0.tar.gz", "blob")], fun _ => none, none, none⟩
        "acme" "vpc" "aws" :=
  (c7_malformed_keys_skipped
      ⟨"b", "modules", "tar.gz", "eu", false, ""⟩
      ⟨[("modules/acme/vpc/aws/vpc-1.0.0.tar.gz", "blob")], fun _ => none, none, none⟩
      "acme" "vpc" "aws" "modules/acme/vpc/aws/readme.txt" "junk" rfl).1

/-- Witness for claim C8 at a concrete upload into an empty store: the
listing afterwards returns exactly the uploaded version. -/
theorem c8_witness :
    S3Storage.ListModuleVersions
        ⟨"b", "modules", "tar.gz", "eu", false, ""⟩
        ⟨[("modules/acme/vpc/aws/vpc-1.0.0.tar.gz", "blob")], fun _ => none, none, none⟩
        "acme" "vpc" "aws" =
      .ok [{ Namespace := "acme", Name := "vpc", Provider := "aws", Version := "1.0.0",
             DownloadURL := "b.s3-eu.amazonaws.com/modules/acme/vpc/aws/vpc-1.0.0.tar.gz" }] :=
  (c8_listing_inventory
      ⟨"b", "modules", "tar.gz", "eu", false, ""⟩
      ⟨[], fun _ => none, none, none⟩
      "acme" "vpc" "aws" "1.0.0" "blob"
      { Namespace := "acme", Name := "vpc", Provider := "aws", Version := "1.0.0",
        DownloadURL := "b.s3-eu.amazonaws.com/modules/acme/vpc/aws/vpc-1.0.0.tar.gz" }
      []).2.2 rfl rfl rfl rfl rfl

/-- Witness for claim C9 at a concrete successful read: the returned download
URL is non-empty. -/
theorem c9_witness :
    Module.DownloadURL
        { Namespace := "acme", Name := "vpc", Provider := "aws", Version := "1.0.0",
          DownloadURL := "b.s3-eu.amazonaws.com/modules/acme/vpc/aws/vpc-1.0.0.tar.gz" } ≠
      "" :=
  ((c9_download_url_convention
      ⟨"b", "modules", "tar.gz", "eu", false, ""⟩
      ⟨[("modules/acme/vpc/aws/vpc-1.0.0.tar.gz", "blob")], fun _ => none, none, none⟩
      "acme" "vpc" "aws" "1.0.0"
      { Namespace := "acme", Name := "vpc", Provider := "aws", Version := "1.0.0",
        DownloadURL := "b.s3-eu.amazonaws.com/modules/acme/vpc/aws/vpc-1.0.0.tar.gz" }
      []).1 rfl).2.2

/-- Witness for claim C10 at a store holding a foreign but parseable key
under the prefix: the listed module carries the caller's name, not the one
encoded in the key. -/
theorem c10_witness :
    Module.Name
        { Namespace := "acme", Name := "vpc", Provider := "aws", Version := "2.0.0",
          DownloadURL := "b.s3-eu.amazonaws.com/modules/acme/vpc/aws/other-2.0.0.tar.gz" } =
      "vpc" :=
  ((c10_listing_copies_caller_identity
      ⟨"b", "modules", "tar.gz", "eu", false, ""⟩
      ⟨[("modules/acme/vpc/aws/other-2.0.0.tar.gz", "x")], fun _ => none, none, none⟩
      "acme" "vpc" "aws"
      [{ Namespace := "acme", Name := "vpc", Provider := "aws", Version := "2.0.0",
         DownloadURL := "b.s3-eu.amazonaws.com/modules/acme/vpc/aws/other-2.0.0.tar.gz" }]
      rfl)
    { Namespace := "acme", Name := "vpc", Provider := "aws", Version := "2.0.0",
      DownloadURL := "b.s3-eu.amazonaws.com/modules/acme/vpc/aws/other-2.0.0.tar.gz" }
    (by simp)).2.1

end BoringRegistry
